import Mathlib

/-!
Verification of the model-promotion decision engine of an MLOps batch
pipeline (`src/models/promote_model.py`).  The promotion script loads a
freshly trained "challenger" model, optionally the current production
("incumbent") model, runs a single-model gate and, when an incumbent
exists, a challenger-vs-incumbent gate, and promotes the challenger when
every applicable gate passes.  Numeric values are embedded as rationals,
dataframes as lists of rows, and the script's effects (gate evaluations,
the promotion call, the alert) as an explicit event trace.
-/

namespace Promote

/-- Errors that can abort a promotion run.  `artifactDoesNotExist` embeds
`ArtifactDoesNoteExistError` from `src/exceptions.py`; `valueError` embeds a
raised `ValueError`; `shapeMismatch` and `insufficientData` embed the failure
modes of the evaluation component as the spec names them. -/
inductive PipeError where
  | artifactDoesNotExist : PipeError
  | valueError : String → PipeError
  | shapeMismatch : PipeError
  | insufficientData : PipeError
deriving DecidableEq, Repr

/-- A dataframe: a list of rows, each row assigning a rational to every
column name.  The promotion code only reads one column (`target_col`) and
hands the whole frame to `model.predict`. -/
structure DataFrame where
  rows : List (String → ℚ)

/-- Column extraction, embedding `test_data[target_col]`. -/
def DataFrame.col (df : DataFrame) (c : String) : List ℚ :=
  df.rows.map (fun r => r c)

/-- Absolute value on ℚ, written out so terms reduce by `decide`. -/
def absQ (x : ℚ) : ℚ := if x < 0 then -x else x

/-- Modelled from the spec: `RegressionEvaluation`
(`src/models/evaluation.py`) is not among the sources; per §4.1 it fails
with `ShapeMismatchError` when the two sequences have unequal length, per
§4.2/§7 an empty test set fails with `InsufficientDataError`, and otherwise
the `mae` metric is the mean absolute error of the two sequences. -/
def regressionMae (y_true y_pred : List ℚ) : Except PipeError ℚ :=
  if y_true.length ≠ y_pred.length then
    .error .shapeMismatch
  else if y_true.length = 0 then
    .error .insufficientData
  else
    .ok (((y_true.zip y_pred).map (fun p => absQ (p.1 - p.2))).sum / y_true.length)

/-- `SingleModelTest`: state computed by its `__init__` (the predictions on
the test data and the model's mae), plus the threshold. -/
structure SingleModelTest where
  predictions : List ℚ
  model_mae : ℚ
  max_mae : ℚ
deriving DecidableEq, Repr

/-- `SingleModelTest.__init__`: predict on the test data and compute the
mae of the predictions against `test_data[target_col]`. -/
def SingleModelTest.make (model : DataFrame → List ℚ) (test_data : DataFrame)
    (target_col : String) (max_mae : ℚ) : Except PipeError SingleModelTest := do
  let predictions := model test_data
  let mae ← regressionMae (test_data.col target_col) predictions
  pure ⟨predictions, mae, max_mae⟩

/-- `SingleModelTest._model_has_ok_mae`: `self.model_mae < self.max_mae`. -/
def SingleModelTest.model_has_ok_mae (t : SingleModelTest) : Bool :=
  decide (t.model_mae < t.max_mae)

/-- Minimum of a list of rationals, `none` on the empty list (where numpy's
`min` would raise). -/
def listMin : List ℚ → Option ℚ
  | [] => none
  | x :: xs => some (xs.foldl min x)

/-- `SingleModelTest._predictions_all_positive`: `self.predictions.min() > 0`. -/
def SingleModelTest.predictions_all_positive (t : SingleModelTest) : Bool :=
  match listMin t.predictions with
  | none => false
  | some m => decide (0 < m)

/-- `SingleModelTest.model_passes_tests`:
`all([self._model_has_ok_mae(), self._predictions_all_positive()])`. -/
def SingleModelTest.model_passes_tests (t : SingleModelTest) : Bool :=
  t.model_has_ok_mae && t.predictions_all_positive

/-- `SingleModelTest.message`.  The source branches on
`if self._model_has_ok_mae:` — the bound method object itself, not its
call — so the condition is always truthy and the first wording is always
chosen; the `else` wording is dead code.  `boundMethodTruthy` embeds that
truthiness. -/
def SingleModelTest.message (t : SingleModelTest) : String :=
  let boundMethodTruthy := true
  let mae_message :=
    if boundMethodTruthy then
      "The model has MAE of " ++ toString t.model_mae ++
        ", which is under the max threshold of " ++ toString t.max_mae
    else
      "The model has MAE of " ++ toString t.model_mae ++
        ", which is not below the max threshold of " ++ toString t.max_mae
  let edge_case_message :=
    if t.predictions_all_positive then "The model passes all edge cases"
    else "The model does not pass all edge cases"
  mae_message ++ ". " ++ edge_case_message ++ "."

/-- `ChallengerModelTest`: state computed by its `__init__` — the maes of
the challenger and of the current production model on the same test data. -/
structure ChallengerModelTest where
  model_challenger_mae : ℚ
  model_current_mae : ℚ
deriving DecidableEq, Repr

/-- `ChallengerModelTest.__init__`: compute each model's mae against
`test_data[target_col]` from its own predictions on `test_data`. -/
def ChallengerModelTest.make (model_challenger model_current : DataFrame → List ℚ)
    (test_data : DataFrame) (target_col : String) :
    Except PipeError ChallengerModelTest := do
  let challenger_mae ← regressionMae (test_data.col target_col) (model_challenger test_data)
  let current_mae ← regressionMae (test_data.col target_col) (model_current test_data)
  pure ⟨challenger_mae, current_mae⟩

/-- `ChallengerModelTest.challenger_model_is_better`:
`self.model_challenger_mae < self.model_current_mae`. -/
def ChallengerModelTest.challenger_model_is_better (t : ChallengerModelTest) : Bool :=
  decide (t.model_challenger_mae < t.model_current_mae)

/-- `ChallengerModelTest.message`.  Unlike `SingleModelTest.message`, the
branch condition here is a `@property` access, so it correctly reflects the
comparison. -/
def ChallengerModelTest.message (t : ChallengerModelTest) : String :=
  let mae_message :=
    if t.challenger_model_is_better then
      "Challenger model has MAE of " ++ toString t.model_challenger_mae ++
        ", which is better than the current models performance of " ++
        toString t.model_current_mae
    else
      "Challenger model has MAE of " ++ toString t.model_challenger_mae ++
        ", which is worse than the current models performance of " ++
        toString t.model_current_mae
  mae_message ++ "."

/-- Alert severities: `wandb.AlertLevel.INFO` and `wandb.AlertLevel.WARN`. -/
inductive Severity where
  | info : Severity
  | warn : Severity
deriving DecidableEq, Repr

/-- The outbound notification sent by `wandb.alert`. -/
structure Alert where
  title : String
  text : String
  level : Severity
deriving DecidableEq, Repr

/-- `log_promotion_status`: build the alert emitted for the run (its log
line carries the same title and body). -/
def log_promotion_status (model_version : String) (additional_info : String)
    (model_to_be_promoted : Bool) : Alert :=
  if model_to_be_promoted then
    { title := "Trained model version " ++ model_version ++ " promoted."
      text := additional_info
      level := .info }
  else
    { title := "Trained model with version " ++ model_version ++ " not promoted."
      text := additional_info
      level := .warn }

/-- A loaded model together with its registry metadata: the callable
predictor (`loaded_model.model.predict`), the registry version
(`model_meta_data.version`) and the alias tags (`wandb_artifact.aliases`). -/
structure ModelHandle where
  predict : DataFrame → List ℚ
  version : String
  aliases : List String

/-- The collaborators of one run of `main`: the outcomes of the three
artifact-store loads (`read_dataframe_artifact` for the test data,
`get_model` at version `latest` for the challenger and at version `prod`
for the incumbent) and the static configuration. -/
structure Env where
  test_data : Except PipeError DataFrame
  challenger : Except PipeError ModelHandle
  current : Except PipeError ModelHandle
  target_col : String
  max_mae : ℚ

/-- Observable effects of a run, in program order: a gate being evaluated
(its state computed), the `promote_to_prod` registry mutation, and an
alert dispatch. -/
inductive Event where
  | gateEval : String → Event
  | promoteToProd : Event
  | alert : Alert → Event
deriving DecidableEq, Repr

/-- Final outcome of a completed run. -/
structure PromotionOutcome where
  promote : Bool
  justification : String
  model_version : String
deriving DecidableEq, Repr

instance {ε α : Type} [DecidableEq ε] [DecidableEq α] : DecidableEq (Except ε α) :=
  fun a b =>
    match a, b with
    | .ok x, .ok y =>
      if h : x = y then .isTrue (by rw [h]) else .isFalse (by simp [h])
    | .error x, .error y =>
      if h : x = y then .isTrue (by rw [h]) else .isFalse (by simp [h])
    | .ok _, .error _ => .isFalse (by simp)
    | .error _, .ok _ => .isFalse (by simp)

/-- The effect trace of a run together with its result: `.error` when the
script aborts with an uncaught exception. -/
structure RunResult where
  events : List Event
  result : Except PipeError PromotionOutcome
deriving DecidableEq, Repr

/-- The message of the `ValueError` raised when the freshly trained model
already carries the `prod` alias. -/
def alreadyPromotedMsg : String :=
  "Latest trained model is already the production model. Something is wrong."

/-- `main` of `src/models/promote_model.py`, as a function of its
collaborators.  Program order: load test data; load challenger; abort if
the challenger already carries the `prod` alias; attempt the incumbent
load, catching only `ArtifactDoesNoteExistError` (treated as "no
incumbent"); build `SingleModelTest`; on the no-incumbent path decide by
the single gate alone, otherwise build `ChallengerModelTest` and require
both gates; promote when decided; always call `log_promotion_status`. -/
def mainRun (env : Env) : RunResult :=
  match env.test_data with
  | .error e => ⟨[], .error e⟩
  | .ok test_data =>
    match env.challenger with
    | .error e => ⟨[], .error e⟩
    | .ok challenger =>
      if "prod" ∈ challenger.aliases then
        ⟨[], .error (.valueError alreadyPromotedMsg)⟩
      else
        match
          (match env.current with
           | .ok m => .ok (some m)
           | .error .artifactDoesNotExist => .ok none
           | .error e => .error e :
            Except PipeError (Option ModelHandle)) with
        | .error e => ⟨[], .error e⟩
        | .ok current =>
          match SingleModelTest.make challenger.predict test_data
              env.target_col env.max_mae with
          | .error e => ⟨[], .error e⟩
          | .ok single_model_test =>
            match current with
            | none =>
              let model_to_be_promoted := single_model_test.model_passes_tests
              let info := single_model_test.message
              ⟨[Event.gateEval "single"] ++
                 (if model_to_be_promoted then [Event.promoteToProd] else []) ++
                 [Event.alert (log_promotion_status challenger.version info
                    model_to_be_promoted)],
               .ok ⟨model_to_be_promoted, info, challenger.version⟩⟩
            | some cur =>
              match ChallengerModelTest.make challenger.predict cur.predict
                  test_data env.target_col with
              | .error e => ⟨[Event.gateEval "single"], .error e⟩
              | .ok challenger_model_test =>
                let model_to_be_promoted :=
                  single_model_test.model_passes_tests &&
                    challenger_model_test.challenger_model_is_better
                let info := single_model_test.message ++ " " ++
                  challenger_model_test.message
                ⟨[Event.gateEval "single", Event.gateEval "challenger"] ++
                   (if model_to_be_promoted then [Event.promoteToProd] else []) ++
                   [Event.alert (log_promotion_status challenger.version info
                      model_to_be_promoted)],
                 .ok ⟨model_to_be_promoted, info, challenger.version⟩⟩

/-- The alerts dispatched during a run, in order. -/
def alertsOf (events : List Event) : List Alert :=
  events.filterMap (fun e =>
    match e with
    | .alert a => some a
    | _ => none)

/-! ### Concrete run data used to exercise the theorems -/

/-- A one-row test set whose every column (in particular the target) is 5. -/
def wDf : DataFrame := ⟨[fun _ => 5]⟩

/-- An empty test set. -/
def wEmptyDf : DataFrame := ⟨[]⟩

/-- A model predicting 4 for every row: mae 1 against `wDf`. -/
def wModelGood : DataFrame → List ℚ := fun df => df.rows.map (fun _ => 4)

/-- A model predicting 2 for every row: mae 3 against `wDf`. -/
def wModelWeak : DataFrame → List ℚ := fun df => df.rows.map (fun _ => 2)

/-- A model predicting 20 for every row: mae 15 against `wDf`. -/
def wModelFar : DataFrame → List ℚ := fun df => df.rows.map (fun _ => 20)

/-- The challenger handle: version 3, tagged `latest`. -/
def wChallenger : ModelHandle := ⟨wModelGood, "3", ["latest"]⟩

/-- An incumbent handle: version 2, tagged `prod`. -/
def wIncumbent : ModelHandle := ⟨wModelWeak, "2", ["prod"]⟩

/-- A challenger handle that already carries the `prod` alias. -/
def wAliasedChallenger : ModelHandle := ⟨wModelGood, "3", ["prod"]⟩

/-- Run environment with no incumbent in the registry. -/
def wEnvSingle : Env := ⟨.ok wDf, .ok wChallenger, .error .artifactDoesNotExist, "y", 10⟩

/-- Run environment with an incumbent in the registry. -/
def wEnvDual : Env := ⟨.ok wDf, .ok wChallenger, .ok wIncumbent, "y", 10⟩

/-- Run environment whose challenger already carries the `prod` alias. -/
def wEnvAliased : Env := ⟨.ok wDf, .ok wAliasedChallenger, .error .artifactDoesNotExist, "y", 10⟩

/-- Run environment whose test-data load fails. -/
def wEnvNoData : Env := ⟨.error .artifactDoesNotExist, .ok wChallenger, .error .artifactDoesNotExist, "y", 10⟩

/-- The single-model gate state computed on `wDf` for `wModelGood` with threshold 10. -/
def wSmt : SingleModelTest := ⟨[4], 1, 10⟩

/-- The single-model gate state computed on `wDf` for `wModelFar` with threshold 1. -/
def wSmtFar : SingleModelTest := ⟨[20], 15, 1⟩

/-- The challenger gate state for `wModelGood` against `wModelWeak` on `wDf`. -/
def wCmt : ChallengerModelTest := ⟨1, 3⟩

/-- The challenger gate state for a model compared against itself: a tie. -/
def wCmtTie : ChallengerModelTest := ⟨1, 1⟩

/-- The outcome of the run in `wEnvSingle`. -/
def wOutcome : PromotionOutcome := ⟨wSmt.model_passes_tests, wSmt.message, wChallenger.version⟩

/-! ### Helper lemmas -/

theorem regressionMae_ok {y_true y_pred : List ℚ} {m : ℚ}
    (h : regressionMae y_true y_pred = .ok m) :
    y_true.length = y_pred.length ∧ y_true ≠ [] := by
  unfold regressionMae at h
  by_cases hlen : y_true.length = y_pred.length
  · rw [if_neg (not_not_intro hlen)] at h
    by_cases hnil : y_true.length = 0
    · rw [if_pos hnil] at h
      simp at h
    · exact ⟨hlen, by simpa using hnil⟩
  · rw [if_pos hlen] at h
    simp at h

theorem single_make_ok {model : DataFrame → List ℚ} {td : DataFrame}
    {tc : String} {mm : ℚ} {smt : SingleModelTest}
    (h : SingleModelTest.make model td tc mm = .ok smt) :
    smt.predictions = model td ∧ smt.max_mae = mm ∧
      regressionMae (td.col tc) (model td) = .ok smt.model_mae ∧
      smt.predictions ≠ [] := by
  unfold SingleModelTest.make at h
  cases hr : regressionMae (td.col tc) (model td) with
  | error e => simp [hr, Except.bind, bind, pure, Except.pure] at h
  | ok m =>
    simp [hr, Except.bind, bind, pure, Except.pure] at h
    obtain ⟨hlen, hnil⟩ := regressionMae_ok hr
    subst h
    refine ⟨rfl, rfl, by simpa using hr, ?_⟩
    intro hcontra
    have hc : model td = [] := hcontra
    apply hnil
    have hzero : (td.col tc).length = 0 := by rw [hlen, hc]; rfl
    exact List.length_eq_zero.mp hzero

theorem challenger_make_ok {mc mi : DataFrame → List ℚ} {td : DataFrame}
    {tc : String} {cmt : ChallengerModelTest}
    (h : ChallengerModelTest.make mc mi td tc = .ok cmt) :
    regressionMae (td.col tc) (mc td) = .ok cmt.model_challenger_mae ∧
      regressionMae (td.col tc) (mi td) = .ok cmt.model_current_mae := by
  unfold ChallengerModelTest.make at h
  cases hr1 : regressionMae (td.col tc) (mc td) with
  | error e => simp [hr1, Except.bind, bind, pure, Except.pure] at h
  | ok m1 =>
    cases hr2 : regressionMae (td.col tc) (mi td) with
    | error e => simp [hr1, hr2, Except.bind, bind, pure, Except.pure] at h
    | ok m2 =>
      simp [hr1, hr2, Except.bind, bind, pure, Except.pure] at h
      subst h
      exact ⟨by simpa using hr1, by simpa using hr2⟩

theorem foldl_min_le (xs : List ℚ) :
    ∀ (x y : ℚ), y ∈ x :: xs → xs.foldl min x ≤ y := by
  induction xs with
  | nil =>
    intro x y hy
    simp at hy
    simp [hy]
  | cons a as ih =>
    intro x y hy
    have hstep : (a :: as).foldl min x = as.foldl min (min x a) := rfl
    rw [hstep]
    have hbase : as.foldl min (min x a) ≤ min x a :=
      ih (min x a) (min x a) (List.mem_cons_self _ _)
    rcases List.mem_cons.mp hy with h1 | h2
    · exact le_trans hbase (by rw [h1]; exact min_le_left _ _)
    · rcases List.mem_cons.mp h2 with h3 | h4
      · exact le_trans hbase (by rw [h3]; exact min_le_right _ _)
      · exact ih (min x a) y (List.mem_cons_of_mem _ h4)

theorem foldl_min_mem (xs : List ℚ) : ∀ (x : ℚ), xs.foldl min x ∈ x :: xs := by
  induction xs with
  | nil => intro x; simp
  | cons a as ih =>
    intro x
    have hstep : (a :: as).foldl min x = as.foldl min (min x a) := rfl
    rw [hstep]
    have := ih (min x a)
    rcases List.mem_cons.mp this with h1 | h2
    · rcases min_choice x a with hx | ha
      · rw [h1, hx]; exact List.mem_cons_self _ _
      · rw [h1, ha]; exact List.mem_cons_of_mem _ (List.mem_cons_self _ _)
    · exact List.mem_cons_of_mem _ (List.mem_cons_of_mem _ h2)

theorem predictions_all_positive_iff (t : SingleModelTest)
    (h : t.predictions ≠ []) :
    t.predictions_all_positive = true ↔ ∀ p ∈ t.predictions, 0 < p := by
  unfold SingleModelTest.predictions_all_positive
  cases hp : t.predictions with
  | nil => exact absurd hp h
  | cons x xs =>
    simp only [listMin]
    constructor
    · intro hm p hmem
      have hle : xs.foldl min x ≤ p := foldl_min_le xs x p (hp ▸ hmem)
      simp only [decide_eq_true_eq] at hm
      exact lt_of_lt_of_le hm hle
    · intro hall
      simp only [decide_eq_true_eq]
      exact hall _ (foldl_min_mem xs x)

/-! ### Claim theorems -/

/-- Claim C2: for every model, non-empty test set, target column and
threshold, the single-model gate passes iff the computed mae is strictly
below the threshold and every prediction is strictly positive. -/
theorem single_model_gate_iff (model : DataFrame → List ℚ) (td : DataFrame)
    (tc : String) (mm : ℚ) (smt : SingleModelTest)
    (h : SingleModelTest.make model td tc mm = .ok smt) :
    smt.model_passes_tests = true ↔
      (smt.model_mae < mm ∧ ∀ p ∈ smt.predictions, 0 < p) := by
  obtain ⟨hpred, hmm, hmae, hnil⟩ := single_make_ok h
  unfold SingleModelTest.model_passes_tests SingleModelTest.model_has_ok_mae
  rw [Bool.and_eq_true, decide_eq_true_eq, predictions_all_positive_iff smt hnil, hmm]

/-- Witness for C2: the gate state computed for `wModelGood` on `wDf`. -/
theorem single_model_gate_iff_witness :
    wSmt.model_passes_tests = true ↔
      (wSmt.model_mae < 10 ∧ ∀ p ∈ wSmt.predictions, 0 < p) :=
  single_model_gate_iff wModelGood wDf "y" 10 wSmt (by
    norm_num [SingleModelTest.make, regressionMae, absQ, DataFrame.col,
      wModelGood, wDf, wSmt, Except.bind, bind, pure, Except.pure])

/-- Claim C3: the challenger gate passes iff the challenger's mae is
strictly below the incumbent's mae; a tie fails. -/
theorem challenger_gate_iff (mc mi : DataFrame → List ℚ) (td : DataFrame)
    (tc : String) (cmt : ChallengerModelTest)
    (h : ChallengerModelTest.make mc mi td tc = .ok cmt) :
    (cmt.challenger_model_is_better = true ↔
       cmt.model_challenger_mae < cmt.model_current_mae) ∧
      (cmt.model_challenger_mae = cmt.model_current_mae →
       cmt.challenger_model_is_better = false) := by
  constructor
  · unfold ChallengerModelTest.challenger_model_is_better
    exact decide_eq_true_iff
  · intro htie
    unfold ChallengerModelTest.challenger_model_is_better
    simp [htie]

/-- Witness for C3: the gate state for `wModelGood` against `wModelWeak`. -/
theorem challenger_gate_iff_witness :
    (wCmt.challenger_model_is_better = true ↔
       wCmt.model_challenger_mae < wCmt.model_current_mae) ∧
      (wCmt.model_challenger_mae = wCmt.model_current_mae →
       wCmt.challenger_model_is_better = false) :=
  challenger_gate_iff wModelGood wModelWeak wDf "y" wCmt (by
    norm_num [ChallengerModelTest.make, regressionMae, absQ, DataFrame.col,
      wModelGood, wModelWeak, wDf, wCmt, Except.bind, bind, pure, Except.pure])

/-- Claim C1: when the incumbent lookup finds nothing, the final promotion
decision equals the single-model gate's verdict; when an incumbent exists,
the decision is the conjunction of the single-model and challenger gate
verdicts, and both gates are evaluated regardless of either's outcome. -/
theorem promotion_decision_correct (env : Env) (td : DataFrame)
    (ch : ModelHandle) (smt : SingleModelTest)
    (htd : env.test_data = .ok td)
    (hch : env.challenger = .ok ch)
    (halias : "prod" ∉ ch.aliases)
    (hsmt : SingleModelTest.make ch.predict td env.target_col env.max_mae = .ok smt) :
    (env.current = .error .artifactDoesNotExist →
       ∃ o : PromotionOutcome, (mainRun env).result = .ok o ∧
         o.promote = smt.model_passes_tests) ∧
      (∀ (cur : ModelHandle) (cmt : ChallengerModelTest),
       env.current = .ok cur →
       ChallengerModelTest.make ch.predict cur.predict td env.target_col = .ok cmt →
       ∃ o : PromotionOutcome, (mainRun env).result = .ok o ∧
         o.promote = (smt.model_passes_tests && cmt.challenger_model_is_better) ∧
         Event.gateEval "single" ∈ (mainRun env).events ∧
         Event.gateEval "challenger" ∈ (mainRun env).events) := by
  constructor
  · intro hcur
    simp [mainRun, htd, hch, halias, hcur, hsmt]
  · intro cur cmt hcur hcmt
    simp [mainRun, htd, hch, halias, hcur, hsmt, hcmt]

/-- Witness for C1: the dual-gate run in `wEnvDual`. -/
theorem promotion_decision_correct_witness :
    ∃ o : PromotionOutcome, (mainRun wEnvDual).result = .ok o ∧
      o.promote = (wSmt.model_passes_tests && wCmt.challenger_model_is_better) ∧
      Event.gateEval "single" ∈ (mainRun wEnvDual).events ∧
      Event.gateEval "challenger" ∈ (mainRun wEnvDual).events :=
  (promotion_decision_correct wEnvDual wDf wChallenger wSmt rfl rfl (by decide)
      (by norm_num [SingleModelTest.make, regressionMae, absQ, DataFrame.col,
        wChallenger, wModelGood, wDf, wSmt, wEnvDual,
        Except.bind, bind, pure, Except.pure])).2
    wIncumbent wCmt rfl
    (by norm_num [ChallengerModelTest.make, regressionMae, absQ, DataFrame.col,
      wChallenger, wIncumbent, wModelGood, wModelWeak, wDf, wCmt, wEnvDual,
      Except.bind, bind, pure, Except.pure])

/-- Claim C4: a challenger that already carries the `prod` alias aborts the
run with the already-promoted error, with no gate evaluated and no side
effect performed (the event trace is empty). -/
theorem already_promoted_aborts (env : Env) (td : DataFrame) (ch : ModelHandle)
    (htd : env.test_data = .ok td)
    (hch : env.challenger = .ok ch)
    (halias : "prod" ∈ ch.aliases) :
    mainRun env = ⟨[], .error (.valueError alreadyPromotedMsg)⟩ := by
  simp [mainRun, htd, hch, halias]

/-- Witness for C4: the run in `wEnvAliased`. -/
theorem already_promoted_aborts_witness :
    mainRun wEnvAliased = ⟨[], .error (.valueError alreadyPromotedMsg)⟩ :=
  already_promoted_aborts wEnvAliased wDf wAliasedChallenger rfl rfl (by decide)

/-- Claim C5: an incumbent lookup failing with the artifact-not-found error
is recovered locally — the run completes on the single-gate path (the
challenger gate is never evaluated) — while a failing test-data or
challenger load aborts the run. -/
theorem incumbent_absence_recovered (env : Env) :
    (∀ (td : DataFrame) (ch : ModelHandle) (smt : SingleModelTest),
       env.test_data = .ok td → env.challenger = .ok ch →
       "prod" ∉ ch.aliases →
       env.current = .error .artifactDoesNotExist →
       SingleModelTest.make ch.predict td env.target_col env.max_mae = .ok smt →
       ∃ o : PromotionOutcome, (mainRun env).result = .ok o ∧
         Event.gateEval "challenger" ∉ (mainRun env).events) ∧
      (∀ e : PipeError, env.test_data = .error e → mainRun env = ⟨[], .error e⟩) ∧
      (∀ (td : DataFrame) (e : PipeError), env.test_data = .ok td →
       env.challenger = .error e → mainRun env = ⟨[], .error e⟩) := by
  refine ⟨?_, ?_, ?_⟩
  · intro td ch smt htd hch halias hcur hsmt
    by_cases hb : smt.model_passes_tests <;>
      simp [mainRun, htd, hch, halias, hcur, hsmt, hb]
  · intro e htd
    simp [mainRun, htd]
  · intro td e htd hch
    simp [mainRun, htd, hch]

/-- Witness for C5: the run in `wEnvSingle`, whose incumbent lookup fails
with the artifact-not-found error. -/
theorem incumbent_absence_recovered_witness :
    ∃ o : PromotionOutcome, (mainRun wEnvSingle).result = .ok o ∧
      Event.gateEval "challenger" ∉ (mainRun wEnvSingle).events :=
  (incumbent_absence_recovered wEnvSingle).1 wDf wChallenger wSmt rfl rfl
    (by decide) rfl
    (by norm_num [SingleModelTest.make, regressionMae, absQ, DataFrame.col,
      wChallenger, wModelGood, wDf, wSmt, wEnvSingle,
      Except.bind, bind, pure, Except.pure])

/-- Claim C9: a failing test-data or challenger load aborts the run with an
empty effect trace — in particular `promote_to_prod` is never called, so
the production alias is untouched. -/
theorem load_failure_aborts_before_side_effect (env : Env) (e : PipeError) :
    (env.test_data = .error e →
       mainRun env = ⟨[], .error e⟩ ∧
         Event.promoteToProd ∉ (mainRun env).events) ∧
      (∀ td : DataFrame, env.test_data = .ok td → env.challenger = .error e →
       mainRun env = ⟨[], .error e⟩ ∧
         Event.promoteToProd ∉ (mainRun env).events) := by
  constructor
  · intro htd
    simp [mainRun, htd]
  · intro td htd hch
    simp [mainRun, htd, hch]

/-- Witness for C9: the run in `wEnvNoData`, whose test-data load fails. -/
theorem load_failure_aborts_before_side_effect_witness :
    mainRun wEnvNoData = ⟨[], .error .artifactDoesNotExist⟩ ∧
      Event.promoteToProd ∉ (mainRun wEnvNoData).events :=
  (load_failure_aborts_before_side_effect wEnvNoData .artifactDoesNotExist).1 rfl

/-- Claim C6: every completed run dispatches exactly one alert, carrying
the run's full justification text, with severity info when promoted and
warning when not. -/
theorem run_emits_single_alert (env : Env) (o : PromotionOutcome)
    (h : (mainRun env).result = .ok o) :
    ∃ a : Alert, alertsOf (mainRun env).events = [a] ∧
      a.text = o.justification ∧
      a.level = (if o.promote then Severity.info else Severity.warn) := by
  cases htd : env.test_data with
  | error e => simp [mainRun, htd] at h
  | ok td =>
    cases hch : env.challenger with
    | error e => simp [mainRun, htd, hch] at h
    | ok ch =>
      by_cases halias : "prod" ∈ ch.aliases
      · simp [mainRun, htd, hch, halias] at h
      · cases hcur : env.current with
        | ok cur =>
          cases hsmt : SingleModelTest.make ch.predict td env.target_col
              env.max_mae with
          | error e => simp [mainRun, htd, hch, halias, hcur, hsmt] at h
          | ok smt =>
            cases hcmt : ChallengerModelTest.make ch.predict cur.predict td
                env.target_col with
            | error e =>
              simp [mainRun, htd, hch, halias, hcur, hsmt, hcmt] at h
            | ok cmt =>
              simp [mainRun, htd, hch, halias, hcur, hsmt, hcmt] at h
              subst h
              by_cases hb : smt.model_passes_tests &&
                  cmt.challenger_model_is_better <;>
                simp [mainRun, htd, hch, halias, hcur, hsmt, hcmt, hb,
                  alertsOf, log_promotion_status]
        | error ecur =>
          cases ecur with
          | artifactDoesNotExist =>
            cases hsmt : SingleModelTest.make ch.predict td env.target_col
                env.max_mae with
            | error e => simp [mainRun, htd, hch, halias, hcur, hsmt] at h
            | ok smt =>
              simp [mainRun, htd, hch, halias, hcur, hsmt] at h
              subst h
              by_cases hb : smt.model_passes_tests <;>
                simp [mainRun, htd, hch, halias, hcur, hsmt, hb,
                  alertsOf, log_promotion_status]
          | valueError s => simp [mainRun, htd, hch, halias, hcur] at h
          | shapeMismatch => simp [mainRun, htd, hch, halias, hcur] at h
          | insufficientData => simp [mainRun, htd, hch, halias, hcur] at h

/-- Witness for C6: the completed run in `wEnvSingle`. -/
theorem run_emits_single_alert_witness :
    ∃ a : Alert, alertsOf (mainRun wEnvSingle).events = [a] ∧
      a.text = wOutcome.justification ∧
      a.level = (if wOutcome.promote then Severity.info else Severity.warn) :=
  run_emits_single_alert wEnvSingle wOutcome (by
    have hm : SingleModelTest.make wModelGood wDf "y" 10 = .ok wSmt := by
      norm_num [SingleModelTest.make, regressionMae, absQ, DataFrame.col,
        wModelGood, wDf, wSmt, Except.bind, bind, pure, Except.pure]
    simp [mainRun, wEnvSingle, hm, wOutcome, wChallenger])

/-- Claim C8: invoking the single-model gate on an empty test set (with a
model producing one prediction per row) fails with the insufficient-data
error instead of returning a verdict. -/
theorem empty_test_data_insufficient (model : DataFrame → List ℚ)
    (df : DataFrame) (tc : String) (mm : ℚ)
    (hempty : df.rows = [])
    (hpred : (model df).length = df.rows.length) :
    SingleModelTest.make model df tc mm = .error .insufficientData := by
  have hcol : (df.col tc).length = 0 := by simp [DataFrame.col, hempty]
  have hp : (model df).length = 0 := by rw [hpred, hempty]; rfl
  have hmae : regressionMae (df.col tc) (model df) = .error .insufficientData := by
    unfold regressionMae
    rw [if_neg (not_not_intro (hcol.trans hp.symm)), if_pos hcol]
  unfold SingleModelTest.make
  simp [hmae, Except.bind, bind]

/-- Witness for C8: `wModelGood` invoked on the empty test set. -/
theorem empty_test_data_insufficient_witness :
    SingleModelTest.make wModelGood wEmptyDf "y" 10 = .error .insufficientData :=
  empty_test_data_insufficient wModelGood wEmptyDf "y" 10 rfl rfl

/-- Claim C10: when the challenger's and incumbent's maes are exactly
equal, the challenger gate's message takes the "worse than" wording. -/
theorem tie_message_worse (mc mi : DataFrame → List ℚ) (td : DataFrame)
    (tc : String) (cmt : ChallengerModelTest)
    (h : ChallengerModelTest.make mc mi td tc = .ok cmt)
    (htie : cmt.model_challenger_mae = cmt.model_current_mae) :
    cmt.message =
      "Challenger model has MAE of " ++ toString cmt.model_challenger_mae ++
        ", which is worse than the current models performance of " ++
        toString cmt.model_current_mae ++ "." := by
  have hb : cmt.challenger_model_is_better = false := by
    simp [ChallengerModelTest.challenger_model_is_better, htie]
  unfold ChallengerModelTest.message
  rw [hb]
  simp

/-- Witness for C10: `wModelGood` compared against itself — equal maes. -/
theorem tie_message_worse_witness :
    wCmtTie.message =
      "Challenger model has MAE of " ++ toString wCmtTie.model_challenger_mae ++
        ", which is worse than the current models performance of " ++
        toString wCmtTie.model_current_mae ++ "." :=
  tie_message_worse wModelGood wModelGood wDf "y" wCmtTie
    (by norm_num [ChallengerModelTest.make, regressionMae, absQ, DataFrame.col,
      wModelGood, wDf, wCmtTie, Except.bind, bind, pure, Except.pure])
    rfl

/-- Claim C7 fails on the code: `SingleModelTest.message` branches on the
bound method `_model_has_ok_mae` itself instead of calling it, so the
condition is always truthy and the message claims the mae "is under the
max threshold" even for a model whose mae (15) is far above the
threshold (1). -/
theorem mae_message_ignores_verdict :
    SingleModelTest.make wModelFar wDf "y" 1 = .ok wSmtFar ∧
      ¬ wSmtFar.model_mae < wSmtFar.max_mae ∧
      wSmtFar.message =
        "The model has MAE of 15, which is under the max threshold of 1. " ++
          "The model passes all edge cases." := by
  refine ⟨?_, ?_, ?_⟩
  · norm_num [SingleModelTest.make, regressionMae, absQ, DataFrame.col,
      wModelFar, wDf, wSmtFar, Except.bind, bind, pure, Except.pure]
  · decide
  · decide

end Promote
